import Mathlib

/-!
Shallow embedding of the question-classification pipeline in `src/main.py`
(repository `classificar-temas-questoes`).

Pure functions of the script become Lean functions.  External effects are
passed in explicitly:
* the directory listing, the file-existence test and the extension allow-list
  are parameters of `listar_arquivos_para_processar`;
* the OCR engine and the LLM call are parameters of type
  `String → Except String String` (`Except.error` models a raised exception);
* the output spreadsheet is an `Option (List Saida)` threaded through the
  per-file loop (`none` models "the file does not exist yet").

Python string primitives (`str.strip`, `str.split`, `str.isdigit`, `int(...)`,
`str.startswith`, `str.endswith`, `str.lower`, `pathlib.Path.stem`) are
modelled on `List Char` so every definition reduces in the kernel.  The
models cover the ASCII behaviour exercised by the script (file names, numeric
identifiers, the pipe-delimited reply format); exotic Unicode digit classes
and underscore digit separators accepted by CPython are outside its inputs.
-/

namespace Questoes

/-- Python whitespace for `str.strip`: space, tab, newline, carriage return,
vertical tab and form feed. -/
def pyEspaco (c : Char) : Bool :=
  c == ' ' || c == '\t' || c == '\n' || c == '\r' || c == Char.ofNat 11 || c == Char.ofNat 12

/-- Python `str.strip()`: drop whitespace from both ends. -/
def pyStrip (s : String) : String :=
  String.mk (((s.toList.dropWhile pyEspaco).reverse.dropWhile pyEspaco).reverse)

/-- Helper for `pySplit`: split a character list at every occurrence of the
separator, keeping empty pieces, accumulating the current piece reversed. -/
def pySplitAux (sep : Char) : List Char → List Char → List (List Char)
  | [], acc => [acc.reverse]
  | c :: resto, acc =>
    if c == sep then acc.reverse :: pySplitAux sep resto []
    else pySplitAux sep resto (c :: acc)

/-- Python `s.split(sep)` for a one-character separator (the script only
splits on `"\n"` and `"|"`). -/
def pySplit (s : String) (sep : Char) : List String :=
  (pySplitAux sep s.toList []).map String.mk

/-- Python `sep in s` for a one-character `sep`. -/
def pyContem (s : String) (c : Char) : Bool :=
  s.toList.contains c

/-- Boolean prefix test on character lists. -/
def listaPrefixo : List Char → List Char → Bool
  | [], _ => true
  | _ :: _, [] => false
  | c :: p, d :: l => c == d && listaPrefixo p l

/-- Python `s.startswith(p)`. -/
def pyComecaCom (s p : String) : Bool :=
  listaPrefixo p.toList s.toList

/-- Python `s.endswith(p)`. -/
def pyTerminaCom (s p : String) : Bool :=
  listaPrefixo p.toList.reverse s.toList.reverse

/-- Python `s.lower()` (ASCII letters, which is all the script compares). -/
def pyLower (s : String) : String :=
  String.mk (s.toList.map Char.toLower)

/-- Python `s.isdigit()` for ASCII strings: non-empty and all decimal digits. -/
def pyIsDigit (s : String) : Bool :=
  !s.toList.isEmpty && s.toList.all Char.isDigit

/-- Value of a string of decimal digits. -/
def natOfDigits (s : String) : Nat :=
  s.toList.foldl (fun n c => 10 * n + (c.toNat - 48)) 0

/-- Python `int(s)` on a string: strips whitespace, accepts an optional sign
followed by decimal digits, raises (`none`) otherwise. -/
def pyIntOfString (s : String) : Option Int :=
  let t := pyStrip s
  match t.toList with
  | '-' :: resto =>
    if pyIsDigit (String.mk resto) then some (-(natOfDigits (String.mk resto) : Int)) else none
  | '+' :: resto =>
    if pyIsDigit (String.mk resto) then some ((natOfDigits (String.mk resto) : Int)) else none
  | _ => if pyIsDigit t then some ((natOfDigits t : Int)) else none

/-- Index of the last `'.'` in a character list, if any. -/
def ultimoPonto : List Char → Option Nat
  | [] => none
  | c :: resto =>
    match ultimoPonto resto with
    | some i => some (i + 1)
    | none => if c == '.' then some 0 else none

/-- Python `pathlib.Path(nome).stem` for a bare file name: the name without
its final suffix.  The suffix is `nome[i:]` for the last dot position `i`
only when `0 < i < len - 1`, so hidden files such as `".env"` and names
ending in a dot keep their full name. -/
def pathStem (nome : String) : String :=
  let cs := nome.toList
  match ultimoPonto cs with
  | some i => if 0 < i ∧ i + 1 < cs.length then String.mk (cs.take i) else nome
  | none => nome

/-! ### Selection set (`carregar_selecoes`, lines 73–98 of `src/main.py`) -/

/-- JSON scalar values that can sit in a `selecoes.json` entry field. -/
inductive JVal where
  | jnum (n : Int)
  | jstr (s : String)
  | jnull
deriving DecidableEq

/-- Python `int(v)` on a decoded JSON value: numbers pass through, strings
are parsed, `null` raises (`none`). -/
def pyInt : JVal → Option Int
  | JVal.jnum n => some n
  | JVal.jstr s => pyIntOfString s
  | JVal.jnull => none

/-- Python `int(item[chave])`: a missing key (`none`) raises `KeyError`,
otherwise the value is coerced with `int(...)`. -/
def pyIntVal : Option JVal → Option Int
  | none => none
  | some v => pyInt v

/-- One entry of `selecoes.json`; `none` in a field models a missing key. -/
structure Item where
  ano : Option JVal
  semestre : Option JVal
  questao : Option JVal
deriving DecidableEq

/-- The in-memory selection dictionary `Dict[Tuple[int, int], Set[str]]`,
as an association list with at most one entry per key (the shape
`carregar_selecoes` builds). -/
abbrev Selecoes : Type := List ((Int × Int) × List String)

/-- Python `selecoes.get((ano, semestre), set())`: first entry for the key,
or the empty set. -/
def selGet : Selecoes → (Int × Int) → List String
  | [], _ => []
  | (k, qs) :: resto, chave => if k = chave then qs else selGet resto chave

/-- Python `selecoes.setdefault((ano, semestre), set()).add(questao)`. -/
def selAdd : Selecoes → (Int × Int) → String → Selecoes
  | [], chave, q => [(chave, [q])]
  | (k, qs) :: resto, chave, q =>
    if k = chave then (k, if q ∈ qs then qs else qs ++ [q]) :: resto
    else (k, qs) :: selAdd resto chave q

/-- Loop body of `carregar_selecoes` (lines 86–91): coerce the three fields
of every item with `int(...)`; any failure raises, aborting the whole load
(`none`). -/
def carregaItens : List Item → Selecoes → Option Selecoes
  | [], acc => some acc
  | it :: resto, acc =>
    match pyIntVal it.ano, pyIntVal it.semestre, pyIntVal it.questao with
    | some a, some s, some q => carregaItens resto (selAdd acc (a, s) (toString q))
    | _, _, _ => none

/-- `carregar_selecoes` (lines 73–95).  `conteudo = none` models every path
that never reaches the loop with a list: file absent, unreadable, JSON parse
failure, or a decoded top-level value that is not a list.  An empty list and
any exception inside the loop also yield the empty dictionary. -/
def carregar_selecoes (conteudo : Option (List Item)) : Selecoes :=
  match conteudo with
  | none => []
  | some data => if data.isEmpty then [] else (carregaItens data []).getD []

/-- A `selecoes.json` item on which the loop of `carregar_selecoes` raises:
a missing key or a field `int(...)` cannot coerce. -/
def item_malformado (it : Item) : Bool :=
  (pyIntVal it.ano).isNone || (pyIntVal it.semestre).isNone || (pyIntVal it.questao).isNone

/-! ### Strict response parser (`processar_resposta_gemini`, lines 102–124) -/

/-- `ClassificationRow`: one `{numero_questao, tema, topico}` dict produced
per accepted reply line. -/
structure Classif where
  numero_questao : String
  tema : String
  topico : String
deriving DecidableEq

/-- Payload of the `ValueError` raised on a reply line with the wrong number
of columns: the originating question number, the offending (stripped) line
and the field count obtained. -/
structure ErroParse where
  numero_questao : String
  linha : String
  obtido : Nat
deriving DecidableEq

/-- The message `str(e)` of the parser `ValueError` (line 114–116):
`Resposta inesperada para Q{n}: '{linha}' (esperado 5 colunas, obteve {k})`. -/
def msgErroParse (e : ErroParse) : String :=
  "Resposta inesperada para Q" ++ e.numero_questao ++ ": '" ++ e.linha ++
    "' (esperado 5 colunas, obteve " ++ toString e.obtido ++ ")"

/-- Line 110: `partes = [p.strip() for p in linha.split("|")]`. -/
def partes_de (linha : String) : List String :=
  (pySplit linha '|').map pyStrip

/-- Treatment of one (raw) reply line by `processar_resposta_gemini`
(lines 106–123): strip; skip blank lines, lines without the delimiter and
header / separator decoration; require exactly 5 fields, raising otherwise;
emit a row only when both `partes[2]` and `partes[3]` are non-empty. -/
def processar_linha (numero linha_bruta : String) : Except ErroParse (List Classif) :=
  let linha := pyStrip linha_bruta
  if linha == "" || !(pyContem linha '|') || pyComecaCom linha "| tema" || pyComecaCom linha "|---" then
    Except.ok []
  else
    match partes_de linha with
    | [_, _, tema, topico, _] =>
      if tema != "" && topico != "" then Except.ok [⟨numero, tema, topico⟩] else Except.ok []
    | partes => Except.error ⟨numero, linha, partes.length⟩

/-- Fold of `processar_linha` over the reply lines; the first raised error
aborts the whole parse, as a Python `raise` inside the `for` loop does. -/
def processar_linhas (numero : String) : List String → Except ErroParse (List Classif)
  | [] => Except.ok []
  | l :: resto =>
    match processar_linha numero l with
    | Except.error e => Except.error e
    | Except.ok rs =>
      match processar_linhas numero resto with
      | Except.error e => Except.error e
      | Except.ok rs2 => Except.ok (rs ++ rs2)

/-- `processar_resposta_gemini` (lines 102–124): strip the reply, split it
into lines and process each line in order. -/
def processar_resposta_gemini (resposta numero_questao : String) :
    Except ErroParse (List Classif) :=
  processar_linhas numero_questao (pySplit (pyStrip resposta) '\n')

/-! ### Reference dataset and taxonomy (`obter_info_questao`, taxonomy
prioritization inside `classificar_questao`) -/

/-- One row of `bd_questoes.xlsx`: the reference question dataset. -/
structure BdRow where
  numero_questao : Int
  ano : Int
  semestre : Int
  materia : String
  gabarito : String
deriving DecidableEq

/-- One row of `lista_assuntos.xlsx`: the taxonomy (subject, theme, topic). -/
structure Assunto where
  materia : String
  tema : String
  topico : String
deriving DecidableEq

/-- `obter_info_questao` (lines 127–142): exact match on
`(int(numero_questao), ano, semestre)`, first matching row; a lookup miss or
any exception — in particular `int(numero_questao)` raising on a non-numeric
file stem — degrades to the `("N/A", "N/A")` sentinel. -/
def obter_info_questao (bd : List BdRow) (numero_questao : String)
    (ano semestre : Int) : String × String :=
  match pyIntOfString numero_questao with
  | none => ("N/A", "N/A")
  | some n =>
    match (bd.filter fun r => r.numero_questao == n && r.ano == ano && r.semestre == semestre).head? with
    | some r => (r.materia, r.gabarito)
    | none => ("N/A", "N/A")

/-- Pandas positional (range) index: pair every row with its position,
starting at `n`. -/
def enumera {α : Type} : Nat → List α → List (Nat × α)
  | _, [] => []
  | n, a :: resto => (n, a) :: enumera (n + 1) resto

/-- Taxonomy prioritization (lines 152–166 of `classificar_questao`):
`topicos_prioritarios` is the whole table when the subject is the `"N/A"`
sentinel and otherwise the rows whose `materia` matches; the serialized
table is the prioritized rows followed by the rows whose *index* is not
among the prioritized indices (`~tabela.index.isin(...)`). -/
def prioriza (tabela : List Assunto) (materia_questao : String) : List Assunto :=
  let indexados := enumera 0 tabela
  let prioritarios :=
    if materia_questao = "N/A" then indexados
    else indexados.filter fun p => p.2.materia == materia_questao
  let indices := prioritarios.map Prod.fst
  (prioritarios ++ indexados.filter fun p => !(indices.contains p.1)).map Prod.snd

/-- `to_csv(index=False, sep="|")` on the prioritized taxonomy: header line
then one `|`-separated line per row (field quoting is irrelevant to the
claims; the serialized text only feeds the prompt). -/
def assuntosCsv (linhas : List Assunto) : String :=
  "materia|tema|topico\n" ++
    String.join (linhas.map fun r => r.materia ++ "|" ++ r.tema ++ "|" ++ r.topico ++ "\n")

/-- The classification prompt (lines 168–191): fixed instruction template
with the serialized taxonomy and the OCR text interpolated, then `.strip()`. -/
def montar_prompt (assuntos_str texto_questao : String) : String :=
  pyStrip ("\nVocê deve se comportar como um professor de ensino médio que tem que classificar os assuntos que cada uma das questões enviadas aborda. \nVocê deve analisar o conteúdo da questão e avaliar quais assuntos da lista de assuntos estão presentes na questão. \nVou te enviar o texto da questão e você deve responder apenas com os temas e tópicos da lista de assuntos que a questão aborda.\nSua resposta deve estar no formato de tabela com as colunas: \n| tema | topico \n\nSua resposta não deve conter nenhuma outra informação além da tabela.\nSua resposta não deve conter \u0060\u0060\u0060\u0060\u0060, nem qualquer outra coisa que não seja a tabela.\nExemplo de resposta correta:\n| tema | topico |\n|---|---|\n| Grandezas físicas | Medição de tempo |\n| Eletrodinâmica | Corrente elétrica |\n| Eletrostática | Carga elétrica |\n\nUma questão pode abordar mais de um tópico, nesse caso cada tópico deve ser uma linha. Você não deve inventar novos tópicos deve usar apenas os tópicos presentes na lista. \nVocê deve usar apenas as colunas tema e topico da lista de assuntos.\nA lista de assuntos é:\n" ++ assuntos_str ++ "\n\nQuestão:\n" ++ texto_questao ++ "\n")

/-- The exact prompt `classificar_questao` sends for the given inputs. -/
def prompt_de (bd : List BdRow) (tabela : List Assunto)
    (numero_questao texto_questao : String) (ano semestre : Int) : String :=
  let info := obter_info_questao bd numero_questao ano semestre
  montar_prompt (assuntosCsv (prioriza tabela info.1)) texto_questao

/-- `classificar_questao` (lines 145–213).  The LLM call is the parameter
`llm` (prompt in, reply out, `Except.error` for a raised exception).  The
function's own `try/except` converts any failure — the model call raising or
the strict parser raising — into exactly one sentinel row
`{numero_questao, "ERRO", "Erro: " ++ message}` with subject and answer key
both `"ERRO"`; the return type being a plain triple (not `Except`) embeds
"never propagates an exception to the caller".  Lookup and prompt building
are total here: `obter_info_questao` already catches its own failures, and
string formatting cannot raise. -/
def classificar_questao (bd : List BdRow) (tabela : List Assunto)
    (llm : String → Except String String)
    (numero_questao texto_questao : String) (ano semestre : Int) :
    List Classif × String × String :=
  let info := obter_info_questao bd numero_questao ano semestre
  let prompt := montar_prompt (assuntosCsv (prioriza tabela info.1)) texto_questao
  match llm prompt with
  | Except.error e => ([⟨numero_questao, "ERRO", "Erro: " ++ e⟩], "ERRO", "ERRO")
  | Except.ok resposta =>
    match processar_resposta_gemini resposta numero_questao with
    | Except.error erro =>
      ([⟨numero_questao, "ERRO", "Erro: " ++ msgErroParse erro⟩], "ERRO", "ERRO")
    | Except.ok classificacoes => (classificacoes, info.1, info.2)

/-! ### Selection filter (`listar_arquivos_para_processar`, lines 220–274) -/

/-- Line 235: `any(len(s) > 0 for s in selecoes.values())` — does any
(year, term) have a non-empty selection? -/
def ha_selecoes_globais : Selecoes → Bool
  | [] => false
  | (_, qs) :: resto => if 0 < qs.length then true else ha_selecoes_globais resto

/-- Lines 256–257: `str(int(stem)) if stem.isdigit() else stem.strip()`. -/
def normaliza_nome (stem : String) : String :=
  if pyIsDigit stem then toString (natOfDigits stem) else pyStrip stem

/-- Lines 228–232: the candidate list `todos` — directory entries whose
lowercased name ends with an allowed extension and which are regular files.
The directory listing and the `is_file` test are effect parameters. -/
def arquivos_candidatos (listagem : List String) (eh_arquivo : String → Bool)
    (extensoes : List String) : List String :=
  listagem.filter fun f => (extensoes.any fun e => pyTerminaCom (pyLower f) e) && eh_arquivo f

/-- `listar_arquivos_para_processar` (lines 220–274): empty when the folder
is missing; when some selection exists globally but this (year, term) has
none, the pair is skipped entirely; with no global selection everything is
processed; otherwise only files whose normalized stem is among the selected
identifiers. -/
def listar_arquivos_para_processar (pasta_existe : Bool) (listagem : List String)
    (eh_arquivo : String → Bool) (extensoes : List String)
    (ano semestre : Int) (selecoes : Selecoes) : List String :=
  if !pasta_existe then []
  else
    let todos := arquivos_candidatos listagem eh_arquivo extensoes
    let ha := ha_selecoes_globais selecoes
    let chaves := selGet selecoes (ano, semestre)
    if ha && chaves.isEmpty then []
    else if !ha then todos
    else todos.filter fun f => chaves.contains (normaliza_nome (pathStem f))

/-! ### Per-file loop and persistence (`processar_ano_semestre`,
lines 277–328) -/

/-- One `OutputRecord` row of `questoes_classificadas.xlsx` (lines 299–312). -/
structure Saida where
  arquivo : String
  caminho_completo : String
  numero_questao : String
  texto_questao : String
  tema : String
  topico : String
  ano : Int
  semestre : Int
  materia : String
  gabarito : String
deriving DecidableEq

/-- Lines 316–322: read-modify-rewrite persistence.  If the output store
exists, its full contents are read back and the new rows concatenated after
them; otherwise the store is created from the new rows alone. -/
def salvar_saida (saida : Option (List Saida)) (novas : List Saida) : List Saida :=
  match saida with
  | some existente => existente ++ novas
  | none => novas

/-- Line 217: `BASE_PATH / str(ano) / f"{semestre}º Semestre" /
"02-Fotos Questões" / "PNG"`. -/
def construir_caminho_pasta (base_path : String) (ano semestre : Int) : String :=
  base_path ++ "/" ++ toString ano ++ "/" ++ toString semestre ++
    "º Semestre" ++ "/" ++ "02-Fotos Questões" ++ "/" ++ "PNG"

/-- The `for arquivo in arquivos` loop of `processar_ano_semestre`
(lines 286–328).  `ocr` bundles `Image.open` + `pytesseract.image_to_string`
(path in, text out, `Except.error` for a raised exception).  The `try` of
lines 288–328 catches any exception at the file level: an OCR failure skips
the file — the store is not touched, no row is written — and the loop
continues with the remaining files.  On success the rows assembled from the
classification are persisted with `salvar_saida` before the next file. -/
def processar_arquivos (pasta : String) (ano semestre : Int)
    (bd : List BdRow) (tabela : List Assunto)
    (ocr llm : String → Except String String) :
    List String → Option (List Saida) → Option (List Saida)
  | [], saida => saida
  | arquivo :: resto, saida =>
    let caminho := pasta ++ "/" ++ arquivo
    let numero_questao := pathStem arquivo
    match ocr caminho with
    | Except.error _ => processar_arquivos pasta ano semestre bd tabela ocr llm resto saida
    | Except.ok texto =>
      let r := classificar_questao bd tabela llm numero_questao texto ano semestre
      let linhas := r.1.map fun c =>
        { arquivo := arquivo
          caminho_completo := caminho
          numero_questao := c.numero_questao
          texto_questao := texto
          tema := c.tema
          topico := c.topico
          ano := ano
          semestre := semestre
          materia := r.2.1
          gabarito := r.2.2 : Saida }
      processar_arquivos pasta ano semestre bd tabela ocr llm resto
        (some (salvar_saida saida linhas))

/-- `processar_ano_semestre` (lines 277–328): skip a missing folder, compute
the selected file list, then run the per-file loop. -/
def processar_ano_semestre (base_path : String) (pasta_existe : Bool)
    (listagem : List String) (eh_arquivo : String → Bool) (extensoes : List String)
    (selecoes : Selecoes) (bd : List BdRow) (tabela : List Assunto)
    (ocr llm : String → Except String String)
    (ano semestre : Int) (saida : Option (List Saida)) : Option (List Saida) :=
  if !pasta_existe then saida
  else
    processar_arquivos (construir_caminho_pasta base_path ano semestre) ano semestre bd tabela
      ocr llm (listar_arquivos_para_processar pasta_existe listagem eh_arquivo extensoes
        ano semestre selecoes) saida

/-! ## Concrete collaborators used by counterexamples and witnesses -/

/-- File-existence test that accepts every directory entry. -/
def sempreArquivo : String → Bool := fun _ => true

/-- OCR collaborator that raises exactly on the file `p/9.png`. -/
def ocr_falha_9 : String → Except String String := fun caminho =>
  if caminho == "p/9.png" then Except.error "tesseract falhou" else Except.ok "texto da questao"

/-- LLM collaborator that always answers with one well-formed table line. -/
def llm_resposta_fixa : String → Except String String := fun _ =>
  Except.ok "| 1 | Tema | Topico |"

/-- LLM collaborator whose call always raises. -/
def llm_indisponivel : String → Except String String := fun _ =>
  Except.error "falha de rede"

/-! ## Claims -/

/-- C1, counterexample: the SelectionSet `{(2024,1): {"12"}}` has no entry
for `(2015, 1)`, yet `listar_arquivos_para_processar` returns `[]` for that
pair, not the full candidate list `["1.png"]` — "selection mode active"
skips pairs that are absent from the selection file (lines 240–245). -/
theorem claim_C1_counterexample :
    listar_arquivos_para_processar true ["1.png"] sempreArquivo [".png"] 2015 1
      [((2024, 1), ["12"])] = []
    ∧ arquivos_candidatos ["1.png"] sempreArquivo [".png"] = ["1.png"] :=
  ⟨rfl, rfl⟩

/-- C1, amended: when no (year, term) anywhere has a non-empty selection,
the filter returns the full candidate list unchanged; when some other pair
has a non-empty selection and this pair's entry is absent or empty, the
filter returns the empty list (the pair is skipped entirely). -/
theorem claim_C1_amended :
    ∀ (listagem : List String) (eh_arquivo : String → Bool) (extensoes : List String)
      (ano semestre : Int) (selecoes : Selecoes),
      (ha_selecoes_globais selecoes = false →
        listar_arquivos_para_processar true listagem eh_arquivo extensoes ano semestre selecoes
          = arquivos_candidatos listagem eh_arquivo extensoes)
      ∧ (ha_selecoes_globais selecoes = true → selGet selecoes (ano, semestre) = [] →
        listar_arquivos_para_processar true listagem eh_arquivo extensoes ano semestre selecoes
          = []) := by
  intro listagem eh_arquivo extensoes ano semestre selecoes
  constructor
  · intro h
    simp [listar_arquivos_para_processar, h]
  · intro h hget
    simp [listar_arquivos_para_processar, h, hget]

/-- C1, witness: with an empty SelectionSet all of `["1.png", "2.png"]` is
processed; with a selection configured only for `(2024, 1)`, the pair
`(2015, 1)` yields the empty list. -/
theorem claim_C1_witness :
    listar_arquivos_para_processar true ["1.png", "2.png"] sempreArquivo [".png"] 2015 1 []
      = ["1.png", "2.png"]
    ∧ listar_arquivos_para_processar true ["1.png"] sempreArquivo [".png"] 2015 1
      [((2024, 1), ["12"])] = [] :=
  ⟨((claim_C1_amended ["1.png", "2.png"] sempreArquivo [".png"] 2015 1 []).1 rfl).trans rfl,
   (claim_C1_amended ["1.png"] sempreArquivo [".png"] 2015 1 [((2024, 1), ["12"])]).2 rfl rfl⟩

/-- C3, counterexample: the reply line `"| 1 | Mechanics | Kinematics |extra|"`
splits on `"|"` into 6 fields, not 5, so the strict parser raises the
field-count `ValueError` instead of yielding a ClassificationRow. -/
theorem claim_C3_counterexample :
    processar_resposta_gemini "| 1 | Mechanics | Kinematics |extra|" "1"
      = Except.error ⟨"1", "| 1 | Mechanics | Kinematics |extra|", 6⟩ :=
  rfl

/-- C3, amended: the 5-field line `"| 1 | Mechanics | Kinematics |"` yields
exactly one ClassificationRow with theme `"Mechanics"` and topic
`"Kinematics"`; the 6-field line raises the parsing error recorded in the
counterexample; a 4-field line raises a parsing error identifying the
question number. -/
theorem claim_C3_amended :
    processar_resposta_gemini "| 1 | Mechanics | Kinematics |" "1"
      = Except.ok [⟨"1", "Mechanics", "Kinematics"⟩]
    ∧ processar_resposta_gemini "| 1 | Mechanics |" "1"
      = Except.error ⟨"1", "| 1 | Mechanics |", 4⟩ :=
  ⟨rfl, rfl⟩

/-- C4, counterexample: the OCR collaborator raises for `"9.png"`; the store
ends up holding the rows of `"10.png"` only — no row at all is emitted for
`"9.png"`, contradicting "emits exactly one output row for that file with
theme=ERROR".  The loop did proceed to the next file. -/
theorem claim_C4_counterexample :
    processar_arquivos "p" 2024 1 [] [] ocr_falha_9 llm_resposta_fixa ["9.png", "10.png"] none
      = some [⟨"10.png", "p/10.png", "10", "texto da questao", "Tema", "Topico", 2024, 1,
              "N/A", "N/A"⟩] :=
  rfl

/-- C4, amended: when the OCR collaborator raises for a file, the file-level
`except` catches the exception, no output row is emitted for that file, the
store is left untouched by it, and the loop continues with the remaining
files exactly as if the file had not been listed. -/
theorem claim_C4_amended :
    ∀ (pasta : String) (ano semestre : Int) (bd : List BdRow) (tabela : List Assunto)
      (ocr llm : String → Except String String) (arquivo : String) (resto : List String)
      (saida : Option (List Saida)) (e : String),
      ocr (pasta ++ "/" ++ arquivo) = Except.error e →
      processar_arquivos pasta ano semestre bd tabela ocr llm (arquivo :: resto) saida
        = processar_arquivos pasta ano semestre bd tabela ocr llm resto saida := by
  intro pasta ano semestre bd tabela ocr llm arquivo resto saida e h
  simp [processar_arquivos, h]

/-- C4, witness: processing `["9.png", "10.png"]` with an OCR collaborator
that raises on `"p/9.png"` equals processing `["10.png"]` alone. -/
theorem claim_C4_witness :
    processar_arquivos "p" 2024 1 [] [] ocr_falha_9 llm_resposta_fixa ["9.png", "10.png"] none
      = processar_arquivos "p" 2024 1 [] [] ocr_falha_9 llm_resposta_fixa ["10.png"] none :=
  claim_C4_amended "p" 2024 1 [] [] ocr_falha_9 llm_resposta_fixa "9.png" ["10.png"] none
    "tesseract falhou" rfl

/-- C5: every failure inside `classificar_questao` — the model call raising,
or the strict parser raising its field-count error on the reply — is caught
and converted into exactly one sentinel row whose theme is the `"ERRO"`
sentinel and whose topic carries the failure message, with subject and
answer key both `"ERRO"`.  The return type of `classificar_questao` is a
plain triple, so no exception can propagate to the run loop; lookup and
prompt building are total (lookup catches its own failures). -/
theorem claim_C5 :
    ∀ (bd : List BdRow) (tabela : List Assunto) (llm : String → Except String String)
      (numero texto : String) (ano semestre : Int),
      (∀ e, llm (prompt_de bd tabela numero texto ano semestre) = Except.error e →
        classificar_questao bd tabela llm numero texto ano semestre
          = ([⟨numero, "ERRO", "Erro: " ++ e⟩], "ERRO", "ERRO"))
      ∧ (∀ resposta erro,
          llm (prompt_de bd tabela numero texto ano semestre) = Except.ok resposta →
          processar_resposta_gemini resposta numero = Except.error erro →
          classificar_questao bd tabela llm numero texto ano semestre
            = ([⟨numero, "ERRO", "Erro: " ++ msgErroParse erro⟩], "ERRO", "ERRO")) := by
  intro bd tabela llm numero texto ano semestre
  constructor
  · intro e h
    unfold prompt_de at h
    unfold classificar_questao
    simp only [] at h ⊢
    rw [h]
  · intro resposta erro h1 h2
    unfold prompt_de at h1
    unfold classificar_questao
    simp only [] at h1 ⊢
    rw [h1]
    dsimp only
    rw [h2]

/-- C5, witness: with an LLM collaborator whose call raises
`"falha de rede"`, `classificar_questao` returns the single sentinel row. -/
theorem claim_C5_witness :
    classificar_questao [] [] llm_indisponivel "1" "texto" 2024 1
      = ([⟨"1", "ERRO", "Erro: falha de rede"⟩], "ERRO", "ERRO") :=
  (claim_C5 [] [] llm_indisponivel "1" "texto" 2024 1).1 "falha de rede" rfl

/-- C7: persisting rows for one file appends.  With an existing store the
result is the previously stored rows followed by the new rows, every prior
row preserved in order; with no store the result is exactly the new rows;
and persisting the same rows twice makes each row occur twice — no
deduplication. -/
theorem claim_C7 :
    ∀ (existente novas : List Saida) (r : Saida),
      salvar_saida (some existente) novas = existente ++ novas
      ∧ salvar_saida none novas = novas
      ∧ (salvar_saida (some (salvar_saida none novas)) novas).count r = 2 * novas.count r := by
  intro existente novas r
  refine ⟨rfl, rfl, ?_⟩
  simp [salvar_saida, List.count_append, Nat.two_mul]

/-- C9: the selection identifiers `"7"`, `" 7 "` and `"007"` are each
normalized by `carregar_selecoes` to the integer string `"7"`, and the
filter normalizes the base name of `"7.png"` the same way, so all three
identifiers select that file. -/
theorem claim_C9 :
    carregar_selecoes (some [⟨some (JVal.jnum 2024), some (JVal.jnum 1), some (JVal.jstr "7")⟩])
      = [((2024, 1), ["7"])]
    ∧ carregar_selecoes
        (some [⟨some (JVal.jnum 2024), some (JVal.jnum 1), some (JVal.jstr " 7 ")⟩])
      = [((2024, 1), ["7"])]
    ∧ carregar_selecoes
        (some [⟨some (JVal.jnum 2024), some (JVal.jnum 1), some (JVal.jstr "007")⟩])
      = [((2024, 1), ["7"])]
    ∧ normaliza_nome (pathStem "7.png") = "7"
    ∧ listar_arquivos_para_processar true ["7.png"] sempreArquivo [".png"] 2024 1
        [((2024, 1), ["7"])] = ["7.png"] :=
  ⟨rfl, rfl, rfl, rfl, rfl⟩

/-! ## Helper lemmas -/

/-- Splitting a character list that does not contain the separator yields a
single piece. -/
theorem pySplitAux_sem_sep (sep : Char) :
    ∀ (cs acc : List Char), cs.contains sep = false →
      pySplitAux sep cs acc = [acc.reverse ++ cs] := by
  intro cs
  induction cs with
  | nil => intro acc _; simp [pySplitAux]
  | cons c resto ih =>
    intro acc h
    rw [List.contains_cons] at h
    have hc : (c == sep) = false := by
      cases hcs : c == sep
      · rfl
      · have hcs2 : c = sep := eq_of_beq hcs
        subst hcs2
        simp at h
    have hresto : resto.contains sep = false := by
      cases hr : resto.contains sep
      · rfl
      · rw [hr] at h
        simp at h
    rw [pySplitAux, hc]
    simp only [Bool.false_eq_true, if_false]
    rw [ih (c :: acc) hresto]
    simp

/-- Splitting a string that does not contain the separator yields the string
itself as the only piece. -/
theorem pySplit_sem_sep (s : String) (sep : Char)
    (h : s.toList.contains sep = false) : pySplit s sep = [s] := by
  unfold pySplit
  rw [pySplitAux_sem_sep sep s.toList [] h]
  rfl

/-- Behaviour of `processar_linha` on an already-stripped data line: the
skip conditions are off, so the outcome is decided by the field count. -/
theorem processar_linha_eq (numero linha : String)
    (h1 : pyStrip linha = linha) (h2 : (linha == "") = false)
    (h3 : pyContem linha '|' = true)
    (h4 : pyComecaCom linha "| tema" = false) (h5 : pyComecaCom linha "|---" = false) :
    processar_linha numero linha
      = match partes_de linha with
        | [_, _, tema, topico, _] =>
          if tema != "" && topico != "" then Except.ok [⟨numero, tema, topico⟩]
          else Except.ok []
        | partes => Except.error ⟨numero, linha, partes.length⟩ := by
  unfold processar_linha
  simp only [h1, h2, h3, h4, h5, Bool.not_true, Bool.or_false, Bool.false_or,
    Bool.false_eq_true, if_false]

/-- Parsing a reply that consists of a single line reduces to the treatment
of that line. -/
theorem processar_resposta_uma_linha (numero linha : String)
    (h1 : pyStrip linha = linha) (h2 : linha.toList.contains '\n' = false) :
    processar_resposta_gemini linha numero
      = match processar_linha numero linha with
        | Except.error e => Except.error e
        | Except.ok rs => Except.ok rs := by
  unfold processar_resposta_gemini
  rw [h1, pySplit_sem_sep linha '\n' h2]
  cases hc : processar_linha numero linha with
  | error e => simp [processar_linhas, hc]
  | ok rs => simp [processar_linhas, hc]

/-- C2: for a reply consisting of one line that contains the delimiter and
is not blank, header, or separator decoration, the strict parser raises the
`ValueError` carrying the question number and the raw line whenever the
split does not yield exactly 5 fields; with exactly 5 fields it emits one
ClassificationRow exactly when both the theme field (`partes[2]`) and the
topic field (`partes[3]`) are non-empty after stripping. -/
theorem claim_C2 :
    ∀ (numero linha : String),
      pyStrip linha = linha →
      linha.toList.contains '\n' = false →
      (linha == "") = false →
      pyContem linha '|' = true →
      pyComecaCom linha "| tema" = false →
      pyComecaCom linha "|---" = false →
      ((partes_de linha).length ≠ 5 →
        processar_resposta_gemini linha numero
          = Except.error ⟨numero, linha, (partes_de linha).length⟩)
      ∧ ((partes_de linha).length = 5 →
        processar_resposta_gemini linha numero
          = Except.ok
              (if ((partes_de linha).getD 2 "") != "" && ((partes_de linha).getD 3 "") != ""
               then [⟨numero, (partes_de linha).getD 2 "", (partes_de linha).getD 3 ""⟩]
               else [])) := by
  intro numero linha h1 h2 h3 h4 h5 h6
  have hmain := processar_resposta_uma_linha numero linha h1 h2
  have hpl := processar_linha_eq numero linha h1 h3 h4 h5 h6
  constructor
  · intro hlen
    rw [hmain, hpl]
    rcases hp : partes_de linha with _ | ⟨a, _ | ⟨b, _ | ⟨c, _ | ⟨d, _ | ⟨e, _ | ⟨f, resto⟩⟩⟩⟩⟩⟩ <;>
      simp_all
  · intro hlen
    rw [hmain, hpl]
    rcases hp : partes_de linha with _ | ⟨a, _ | ⟨b, _ | ⟨c, _ | ⟨d, _ | ⟨e, _ | ⟨f, resto⟩⟩⟩⟩⟩⟩
    all_goals simp_all
    by_cases hP : ¬c = "" ∧ ¬d = "" <;> simp [hP]

/-- C2, witness: the single 5-field line `"| 1 | Tema | Topico |"` yields
exactly one row with theme `"Tema"` and topic `"Topico"`. -/
theorem claim_C2_witness :
    processar_resposta_gemini "| 1 | Tema | Topico |" "1"
      = Except.ok [⟨"1", "Tema", "Topico"⟩] :=
  ((claim_C2 "1" "| 1 | Tema | Topico |" rfl rfl rfl rfl rfl rfl).2 rfl).trans rfl

/-- A non-empty selection entry for some key means the global selection mode
is active. -/
theorem selGet_ne_nil_ha (m : Selecoes) (k : Int × Int)
    (h : selGet m k ≠ []) : ha_selecoes_globais m = true := by
  induction m with
  | nil => exact absurd rfl h
  | cons e resto ih =>
    obtain ⟨kk, qs⟩ := e
    unfold ha_selecoes_globais
    by_cases hk : kk = k
    · unfold selGet at h
      rw [if_pos hk] at h
      have hq : 0 < qs.length := by
        cases qs with
        | nil => exact absurd rfl h
        | cons _ _ => simp
      rw [if_pos hq]
    · unfold selGet at h
      rw [if_neg hk] at h
      by_cases hq : 0 < qs.length
      · rw [if_pos hq]
      · rw [if_neg hq]
        exact ih h

/-- C6: with a non-empty selection entry for this (year, term) whose
identifiers are in normalized form (as `carregar_selecoes` produces them),
a candidate file is kept by the filter exactly when its derived question
number — the base name of the file, normalized — equals some selected
identifier up to normalization; a file outside the candidate list is never
kept, and nothing else is kept.  An entry matching no file simply yields an
empty list. -/
theorem claim_C6 :
    ∀ (listagem : List String) (eh_arquivo : String → Bool) (extensoes : List String)
      (ano semestre : Int) (selecoes : Selecoes) (f : String),
      selGet selecoes (ano, semestre) ≠ [] →
      (∀ q ∈ selGet selecoes (ano, semestre), normaliza_nome q = q) →
      (f ∈ listar_arquivos_para_processar true listagem eh_arquivo extensoes ano semestre selecoes
        ↔ f ∈ arquivos_candidatos listagem eh_arquivo extensoes
          ∧ ∃ q ∈ selGet selecoes (ano, semestre),
              normaliza_nome (pathStem f) = normaliza_nome q) := by
  intro listagem eh_arquivo extensoes ano semestre selecoes f hne hnorm
  have hha := selGet_ne_nil_ha selecoes (ano, semestre) hne
  have hie : (selGet selecoes (ano, semestre)).isEmpty = false := by
    cases hs : selGet selecoes (ano, semestre) with
    | nil => exact absurd hs hne
    | cons _ _ => rfl
  unfold listar_arquivos_para_processar
  simp only [hha, hie, Bool.not_true, Bool.and_false, Bool.false_eq_true, if_false]
  rw [List.mem_filter]
  constructor
  · rintro ⟨hmem, hsel⟩
    rw [List.elem_iff] at hsel
    exact ⟨hmem, normaliza_nome (pathStem f), hsel, (hnorm _ hsel).symm⟩
  · rintro ⟨hmem, q, hq, heq⟩
    refine ⟨hmem, ?_⟩
    rw [List.elem_iff]
    rw [hnorm q hq] at heq
    rw [heq]
    exact hq

/-- C6, witness: with selection `{(2024,1): {"7"}}`, the candidate
`"007.png"` (stem `"007"`, normalized `"7"`) is kept by the filter. -/
theorem claim_C6_witness :
    "007.png" ∈ listar_arquivos_para_processar true ["7.png", "007.png", "8.png"]
        sempreArquivo [".png"] 2024 1 [((2024, 1), ["7"])]
      ↔ "007.png" ∈ arquivos_candidatos ["7.png", "007.png", "8.png"] sempreArquivo [".png"]
        ∧ ∃ q ∈ selGet [((2024, 1), ["7"])] (2024, 1),
            normaliza_nome (pathStem "007.png") = normaliza_nome q :=
  claim_C6 ["7.png", "007.png", "8.png"] sempreArquivo [".png"] 2024 1 [((2024, 1), ["7"])]
    "007.png" (by decide)
    (fun q hq => by
      rw [show selGet [((2024, 1), ["7"])] (2024, 1) = ["7"] from rfl] at hq
      rw [List.mem_singleton] at hq
      rw [hq]
      decide)

/-- Forgetting the positional index recovers the original rows. -/
theorem enumera_map_snd {α : Type} : ∀ (n : Nat) (l : List α),
    (enumera n l).map Prod.snd = l := by
  intro n l
  induction l generalizing n with
  | nil => rfl
  | cons a t ih => simp [enumera, ih]

/-- Every index produced by `enumera n` is at least `n`. -/
theorem mem_enumera_ge {α : Type} : ∀ (l : List α) (n : Nat) (p : Nat × α),
    p ∈ enumera n l → n ≤ p.1 := by
  intro l
  induction l with
  | nil => intro n p h; cases h
  | cons a t ih =>
    intro n p h
    simp only [enumera] at h
    rcases List.mem_cons.mp h with h1 | h2
    · subst h1; exact Nat.le_refl n
    · exact Nat.le_of_succ_le (ih (n+1) p h2)

/-- Filtering the indexed rows by a predicate on the row value and dropping
the indices is plain filtering. -/
theorem enumera_filter_map_snd {α : Type} (q : α → Bool) :
    ∀ (n : Nat) (l : List α),
      ((enumera n l).filter fun p => q p.2).map Prod.snd = l.filter q := by
  intro n l
  induction l generalizing n with
  | nil => rfl
  | cons a t ih =>
    simp only [enumera, List.filter_cons]
    cases hqa : q a <;> simp [hqa, ih]

/-- Pandas-style index exclusion: keeping the indexed rows whose index is
not among the indices selected by a row-value predicate is the same as
filtering by the negated predicate (indices are distinct, so index identity
coincides with predicate membership). -/
theorem enumera_excl {α : Type} (q : α → Bool) :
    ∀ (n : Nat) (l : List α),
      ((enumera n l).filter fun p =>
          !((((enumera n l).filter fun p2 => q p2.2).map Prod.fst).contains p.1)).map Prod.snd
        = l.filter fun a => !(q a) := by
  intro n l
  induction l generalizing n with
  | nil => rfl
  | cons a t ih =>
    have hI : ∀ j ∈ (((enumera (n+1) t).filter fun p2 => q p2.2).map Prod.fst), n + 1 ≤ j := by
      intro j hj
      rcases List.mem_map.mp hj with ⟨p2, hp2, hj2⟩
      rw [← hj2]
      exact mem_enumera_ge t (n+1) p2 (List.mem_filter.mp hp2).1
    have hnmem :
        ((((enumera (n+1) t).filter fun p2 => q p2.2).map Prod.fst).contains n) = false := by
      cases hb : ((((enumera (n+1) t).filter fun p2 => q p2.2).map Prod.fst).contains n)
      · rfl
      · have hmem := List.elem_iff.mp hb
        have := hI n hmem
        omega
    have hcongr : ∀ (idx2 : List Nat),
        ((enumera (n+1) t).filter fun p => !(p.1 == n || idx2.contains p.1))
          = ((enumera (n+1) t).filter fun p => !(idx2.contains p.1)) := by
      intro idx2
      apply List.filter_congr
      intro p hp
      have hge := mem_enumera_ge t (n+1) p hp
      have hne : (p.1 == n) = false := by
        cases hb : p.1 == n
        · rfl
        · have h2 : p.1 = n := eq_of_beq hb
          omega
      rw [hne, Bool.false_or]
    cases hqa : q a with
    | true =>
      simp only [enumera, List.filter_cons, hqa, if_true, List.map_cons, List.contains_cons,
        beq_self_eq_true, Bool.true_or, Bool.not_true, Bool.false_eq_true, if_false]
      rw [hcongr]
      exact ih (n+1)
    | false =>
      simp only [enumera, List.filter_cons, hqa, Bool.false_eq_true, if_false, hnmem,
        Bool.not_false, if_true, List.map_cons, eq_self_iff_true]
      exact congrArg (List.cons a) (ih (n+1))

/-- Excluding every index of the same indexed list leaves nothing. -/
theorem enumera_excl_all {α : Type} : ∀ (n : Nat) (l : List α),
    (enumera n l).filter (fun p => !(((enumera n l).map Prod.fst).contains p.1)) = [] := by
  intro n l
  rw [List.filter_eq_nil_iff]
  intro p hp
  have hmem : p.1 ∈ (enumera n l).map Prod.fst := List.mem_map.mpr ⟨p, hp, rfl⟩
  have hc : ((enumera n l).map Prod.fst).contains p.1 = true := List.elem_iff.mpr hmem
  rw [hc]
  decide

/-- C8: the prioritized taxonomy ordering puts the rows whose subject equals
the question's subject first, in their original relative order, followed by
all remaining rows in their original relative order; when the subject is the
`"N/A"` unknown sentinel the ordering is the identity ordering of the whole
table. -/
theorem claim_C8 :
    ∀ (tabela : List Assunto) (materia : String),
      (materia ≠ "N/A" →
        prioriza tabela materia
          = (tabela.filter fun r => r.materia == materia)
            ++ (tabela.filter fun r => !(r.materia == materia)))
      ∧ prioriza tabela "N/A" = tabela := by
  intro tabela materia
  constructor
  · intro h
    simp only [prioriza]
    rw [if_neg h]
    rw [List.map_append]
    rw [enumera_filter_map_snd (fun r => r.materia == materia) 0 tabela]
    rw [enumera_excl (fun r => r.materia == materia) 0 tabela]
  · simp only [prioriza, if_true]
    rw [enumera_excl_all 0 tabela, List.append_nil, enumera_map_snd 0 tabela]

/-- C8, witness: on the taxonomy `[(A,t1,o1), (B,t2,o2), (A,t3,o3)]` with
subject `"A"`, the prioritized ordering is `[A-row1, A-row3, B-row2]`. -/
theorem claim_C8_witness :
    prioriza [⟨"A", "t1", "o1"⟩, ⟨"B", "t2", "o2"⟩, ⟨"A", "t3", "o3"⟩] "A"
      = [⟨"A", "t1", "o1"⟩, ⟨"A", "t3", "o3"⟩, ⟨"B", "t2", "o2"⟩] :=
  ((claim_C8 [⟨"A", "t1", "o1"⟩, ⟨"B", "t2", "o2"⟩, ⟨"A", "t3", "o3"⟩] "A").1
    (by decide)).trans rfl

/-- Every identifier stored in the selection dictionary is the decimal
string of an integer (the form `str(int(...))` produces). -/
def boaSelecao (m : Selecoes) : Prop :=
  ∀ e ∈ m, ∀ q ∈ e.2, ∃ n : Int, q = toString n

/-- Adding the decimal string of an integer preserves `boaSelecao`. -/
theorem selAdd_boa : ∀ (m : Selecoes) (k : Int × Int) (q : String),
    boaSelecao m → (∃ n : Int, q = toString n) → boaSelecao (selAdd m k q) := by
  intro m k q
  induction m with
  | nil =>
    intro _ hq e he q2 hq2
    simp only [selAdd, List.mem_singleton] at he
    subst he
    rw [List.mem_singleton] at hq2
    subst hq2
    exact hq
  | cons e0 resto ih =>
    obtain ⟨kk, qs⟩ := e0
    intro hm hq e he q2 hq2
    simp only [selAdd] at he
    by_cases hk : kk = k
    · rw [if_pos hk] at he
      rcases List.mem_cons.mp he with rfl | htail
      · by_cases hqin : q ∈ qs
        · rw [if_pos hqin] at hq2
          exact hm (kk, qs) (List.mem_cons_self _ _) q2 hq2
        · rw [if_neg hqin] at hq2
          rcases List.mem_append.mp hq2 with h1 | h2
          · exact hm (kk, qs) (List.mem_cons_self _ _) q2 h1
          · rw [List.mem_singleton] at h2
            subst h2
            exact hq
      · exact hm e (List.mem_cons_of_mem _ htail) q2 hq2
    · rw [if_neg hk] at he
      rcases List.mem_cons.mp he with rfl | htail
      · exact hm (kk, qs) (List.mem_cons_self _ _) q2 hq2
      · have hm2 : boaSelecao resto := fun e2 he2 => hm e2 (List.mem_cons_of_mem _ he2)
        exact ih hm2 hq e htail q2 hq2

/-- A successful run of the loading loop only ever stores decimal integer
strings. -/
theorem carregaItens_boa : ∀ (data : List Item) (acc : Selecoes),
    boaSelecao acc → ∀ m, carregaItens data acc = some m → boaSelecao m := by
  intro data
  induction data with
  | nil =>
    intro acc hacc m h
    simp only [carregaItens, Option.some.injEq] at h
    subst h
    exact hacc
  | cons it resto ih =>
    intro acc hacc m h
    rcases ha : pyIntVal it.ano with _ | a <;>
      rcases hs : pyIntVal it.semestre with _ | s <;>
        rcases hqv : pyIntVal it.questao with _ | qn <;>
          simp [carregaItens, ha, hs, hqv] at h
    exact ih _ (selAdd_boa acc (a, s) (toString qn) hacc ⟨qn, rfl⟩) m h

/-- Members of a looked-up selection entry come from some stored entry. -/
theorem mem_selGet : ∀ (m : Selecoes) (k : Int × Int) (q : String),
    q ∈ selGet m k → ∃ e ∈ m, q ∈ e.2 := by
  intro m k q
  induction m with
  | nil => intro h; cases h
  | cons e0 resto ih =>
    obtain ⟨kk, qs⟩ := e0
    intro h
    unfold selGet at h
    by_cases hk : kk = k
    · rw [if_pos hk] at h
      exact ⟨(kk, qs), List.mem_cons_self _ _, h⟩
    · rw [if_neg hk] at h
      rcases ih h with ⟨e, he, hq⟩
      exact ⟨e, List.mem_cons_of_mem _ he, hq⟩

/-- A malformed item anywhere in the list makes the loading loop raise,
regardless of how much was already accumulated. -/
theorem carregaItens_aborta : ∀ (data : List Item) (acc : Selecoes),
    (∃ it ∈ data, item_malformado it = true) → carregaItens data acc = none := by
  intro data
  induction data with
  | nil =>
    intro acc h
    rcases h with ⟨it, hmem, _⟩
    cases hmem
  | cons it0 resto ih =>
    intro acc h
    rcases h with ⟨it, hmem, hmal⟩
    rcases List.mem_cons.mp hmem with rfl | htail
    · rcases ha : pyIntVal it.ano with _ | a <;>
        rcases hs : pyIntVal it.semestre with _ | s <;>
          rcases hqv : pyIntVal it.questao with _ | qn <;>
            simp [carregaItens, ha, hs, hqv]
      unfold item_malformado at hmal
      rw [ha, hs, hqv] at hmal
      simp at hmal
    · rcases ha : pyIntVal it0.ano with _ | a <;>
        rcases hs : pyIntVal it0.semestre with _ | s <;>
          rcases hqv : pyIntVal it0.questao with _ | qn <;>
            simp [carregaItens, ha, hs, hqv]
      exact ih _ ⟨it, htail, hmal⟩

/-- C10: loading the selection file is all-or-nothing — one malformed entry
(a non-integer question identifier or a missing key) makes
`carregar_selecoes` discard every entry, well-formed ones included, and
return the empty SelectionSet; consequently every identifier in any loaded
SelectionSet is the decimal string of an integer, so a non-numeric
identifier can never appear. -/
theorem claim_C10 :
    (∀ (data : List Item), (∃ it ∈ data, item_malformado it = true) →
      carregar_selecoes (some data) = [])
    ∧ (∀ (conteudo : Option (List Item)) (k : Int × Int) (q : String),
        q ∈ selGet (carregar_selecoes conteudo) k → ∃ n : Int, q = toString n) := by
  constructor
  · intro data h
    have habort := carregaItens_aborta data [] h
    unfold carregar_selecoes
    cases data with
    | nil =>
      rcases h with ⟨it, hmem, _⟩
      cases hmem
    | cons it resto => simp [habort]
  · intro conteudo k q h
    cases conteudo with
    | none => simp [carregar_selecoes, selGet] at h
    | some data =>
      simp only [carregar_selecoes] at h
      by_cases hemp : data.isEmpty
      · rw [if_pos hemp] at h
        simp [selGet] at h
      · rw [if_neg hemp] at h
        cases hc : carregaItens data [] with
        | none =>
          rw [hc] at h
          simp [selGet] at h
        | some m =>
          rw [hc] at h
          have hboa := carregaItens_boa data [] (by intro e he; cases he) m hc
          rcases mem_selGet m k q h with ⟨e, he, hq⟩
          exact hboa e he q hq

/-- C10, witness: the file `[{2024,1,"12"}, {2024,1,"x"}]` contains one
well-formed entry and one with the non-integer identifier `"x"`; the loader
discards both and returns the empty SelectionSet. -/
theorem claim_C10_witness :
    carregar_selecoes (some
      [⟨some (JVal.jnum 2024), some (JVal.jnum 1), some (JVal.jstr "12")⟩,
       ⟨some (JVal.jnum 2024), some (JVal.jnum 1), some (JVal.jstr "x")⟩]) = [] :=
  claim_C10.1 _
    ⟨⟨some (JVal.jnum 2024), some (JVal.jnum 1), some (JVal.jstr "x")⟩, by decide, rfl⟩

end Questoes
